import Mathlib

/-!
A shallow embedding of `src/utils/NotificationService.ts` from the
GU-React-App repository, together with theorems settling the frozen
claims about its behavior.

The TypeScript module is a platform-conditional notification dispatcher.
Its observable behavior is a sequence of calls into platform notification
APIs plus warning logs, parameterized by:
  * the runtime platform (`Platform.OS`),
  * whether the lazy `require('expo-notifications')` succeeds,
  * whether each underlying platform call throws,
  * the permission state reported by the platform.

We model one call as a pure function from an environment (the platform
oracle) and the module state (the process-wide boolean flag
`notificationHandlerInitialized`, rendered here as `handlerRegistered`)
to an `Except`-typed result carrying the new module state, the list of
emitted effects, and the list of timers armed via `setTimeout`.  A
`.error` result would model an exception escaping to the caller; the
try/catch structure of the source is modelled explicitly, so proving the
result is always `.ok` is exactly the "no uncaught failure" contract.
-/

namespace NotificationService

/-- The value of `Platform.OS` in react-native.  The source only ever
compares it against the literal string `'web'`. -/
inductive PlatformOS
  | ios
  | android
  | windows
  | macos
  | web
deriving DecidableEq, Repr

/-- The `status` field returned by `requestPermissionsAsync` in
expo-notifications; the source only compares it against `'granted'`. -/
inductive NativePermission
  | granted
  | denied
  | undetermined
deriving DecidableEq, Repr

/-- The browser `Notification.permission` value: one of the strings
`'granted'`, `'denied'`, `'default'`. -/
inductive WebPermission
  | granted
  | denied
  | default
deriving DecidableEq, Repr

/-- The `content` object passed to `scheduleNotificationAsync`:
`{ content: { title, body } }`. -/
structure Content where
  title : String
  body : String
deriving DecidableEq, Repr

/-- The `trigger` argument of `scheduleNotificationAsync`:
either the literal `null` (fire immediately) or the time-interval object
`{ type: TIME_INTERVAL, seconds, repeats }`. -/
inductive Trigger
  | null
  | timeInterval (seconds : Nat) (repeats : Bool)
deriving DecidableEq, Repr

/-- Observable effects of one call into the module.  Each constructor
records one call into a platform API or one `console.warn`. -/
inductive Effect
  | requireExpoNotifications (succeeded : Bool)
  | setNotificationHandlerCall
  | requestPermissionsAsyncCall
  | scheduleNotificationAsyncCall (content : Content) (trigger : Trigger)
  | webRequestPermissionCall
  | newNotification (title : String) (body : String) (hasIcon : Bool)
  | consoleWarn (msg : String)
deriving DecidableEq, Repr

/-- A timer armed by `setTimeout` in the web branch of
`scheduleNotification`.  The callback in the source is literally
`() => sendWebNotification(title, body)`, so the timer is fully
described by its delay in milliseconds and the captured title/body;
firing it is defined below as running `sendWebNotification`. -/
structure Timer where
  delayMs : Nat
  title : String
  body : String
deriving DecidableEq, Repr

/-- The environment: platform identity and the behavior of every
external collaborator the module can touch during one call. -/
structure Env where
  /-- the value of `Platform.OS` -/
  os : PlatformOS
  /-- whether `require('expo-notifications')` succeeds -/
  requireSucceeds : Bool
  /-- whether `Notifications.setNotificationHandler` throws -/
  setHandlerThrows : Bool
  /-- whether `Notifications.requestPermissionsAsync` rejects -/
  permissionsThrow : Bool
  /-- the `status` it resolves with when it does not reject -/
  permissionsStatus : NativePermission
  /-- whether `Notifications.scheduleNotificationAsync` rejects -/
  scheduleThrows : Bool
  /-- whether `typeof window !== 'undefined'` -/
  hasWindow : Bool
  /-- whether `'Notification' in window` -/
  notificationInWindow : Bool
  /-- the browser `Notification.permission` read at call time -/
  webPermission : WebPermission
  /-- the permission value after `Notification.requestPermission()` resolves -/
  webPermissionAfterRequest : WebPermission
  /-- whether `Notification.requestPermission()` rejects -/
  webRequestThrows : Bool
  /-- whether `new Notification(title, options)` throws -/
  webConstructorThrows : Bool
deriving DecidableEq, Repr

/-- The process-wide module state: the single `let`-bound boolean
`notificationHandlerInitialized` (here `handlerRegistered`). -/
structure MState where
  handlerRegistered : Bool
deriving DecidableEq, Repr

/-- Result of one public call that returned normally: the new module
state, the effects emitted during the call, and the timers armed. -/
structure CallResult where
  state : MState
  effects : List Effect
  timers : List Timer
deriving DecidableEq, Repr

/-- Models `getNotifications`: returns `null` on web without requiring;
otherwise evaluates `require('expo-notifications')` inside try/catch,
returning `null` if it throws.  `Option Unit` stands for the opaque
module handle (`some ()` = a usable handle). -/
def getNotifications (env : Env) : Option Unit × List Effect :=
  if env.os = .web then (none, [])
  else if env.requireSucceeds then (some (), [.requireExpoNotifications true])
  else (none, [.requireExpoNotifications false])

/-- Models `initializeNotificationHandler` (renamed for the embedding): returns
early if the flag is set, the handle is null, or the platform is web;
otherwise calls `setNotificationHandler` inside try/catch and sets the
flag only when that call returns without throwing.  A throw is swallowed
silently (no warning) and leaves the flag unchanged. -/
def initNotificationHandler (env : Env) (hasNotifications : Bool) (st : MState) :
    MState × List Effect :=
  if st.handlerRegistered || !hasNotifications || env.os = .web then (st, [])
  else if env.setHandlerThrows then (st, [.setNotificationHandlerCall])
  else ({ st with handlerRegistered := true }, [.setNotificationHandlerCall])

/-- The body of the `try` block in `sendWebNotification`: read
`Notification.permission`, request permission when it is `'default'`,
re-read it, and either construct the notification (no icon in the
options object) or warn.  The `Except` component records whether the
block threw; effects emitted before the throw are kept. -/
def sendWebNotificationTry (env : Env) (title body : String) :
    List Effect × Except Unit Unit :=
  if env.webPermission = .default then
    if env.webRequestThrows then ([.webRequestPermissionCall], .error ())
    else if env.webPermissionAfterRequest = .granted then
      if env.webConstructorThrows then
        ([.webRequestPermissionCall, .newNotification title body false], .error ())
      else
        ([.webRequestPermissionCall, .newNotification title body false], .ok ())
    else
      ([.webRequestPermissionCall, .consoleWarn "Notification permission denied"], .ok ())
  else if env.webPermission = .granted then
    if env.webConstructorThrows then
      ([.newNotification title body false], .error ())
    else
      ([.newNotification title body false], .ok ())
  else
    ([.consoleWarn "Notification permission denied"], .ok ())

/-- Models `sendWebNotification`: guard on the browser capability being present,
then run the try block, converting any throw into one warning.  The
function itself never rejects, which is why its result type carries no
`Except`. -/
def sendWebNotification (env : Env) (title body : String) : List Effect :=
  if !env.hasWindow || !env.notificationInWindow then
    [.consoleWarn "Browser notifications not supported"]
  else
    match sendWebNotificationTry env title body with
    | (effs, .ok _) => effs
    | (effs, .error _) => effs ++ [.consoleWarn "Failed to send web notification:"]

/-- Firing a timer armed by the web branch of `scheduleNotification`
runs the captured callback `() => sendWebNotification(title, body)`
against the environment as it is at firing time. -/
def fireTimer (env : Env) (t : Timer) : List Effect :=
  sendWebNotification env t.title t.body

/-- The body of the `try` block shared (textually duplicated in the
source) by the native branches of `sendLocalNotification` and
`scheduleNotification`: lazily register the handler, request
permissions, and when granted issue the schedule call with the given
trigger.  The `Except` component records whether the block threw. -/
def nativeTryBlock (env : Env) (st : MState) (content : Content) (trigger : Trigger) :
    MState × List Effect × Except Unit Unit :=
  let (st1, e1) := initNotificationHandler env true st
  let e2 := e1 ++ [Effect.requestPermissionsAsyncCall]
  if env.permissionsThrow then (st1, e2, .error ())
  else if env.permissionsStatus ≠ .granted then
    (st1, e2 ++ [.consoleWarn "Notification permissions not granted"], .ok ())
  else
    let e3 := e2 ++ [Effect.scheduleNotificationAsyncCall content trigger]
    if env.scheduleThrows then (st1, e3, .error ())
    else (st1, e3, .ok ())

/-- Models `sendLocalNotification(title, body)`: on web delegate to
`sendWebNotification`; otherwise lazily resolve the capability (warn and
return when unavailable), then run the native try block with the
immediate trigger `null`, converting a throw into one warning. -/
def sendLocalNotification (env : Env) (st : MState) (title body : String) :
    Except Unit CallResult :=
  if env.os = .web then
    .ok ⟨st, sendWebNotification env title body, []⟩
  else
    match getNotifications env with
    | (none, effs) =>
        .ok ⟨st, effs ++ [.consoleWarn "Notifications not available on this platform"], []⟩
    | (some _, effs) =>
        match nativeTryBlock env st ⟨title, body⟩ .null with
        | (st1, effs1, .ok _) => .ok ⟨st1, effs ++ effs1, []⟩
        | (st1, effs1, .error _) =>
            .ok ⟨st1, effs ++ effs1 ++
              [.consoleWarn "Failed to send local notification. Note: Notifications may not work in Expo Go. Use a development build for full functionality."], []⟩

/-- Models `scheduleNotification(title, body, seconds)`: on web arm a
`setTimeout` for `seconds * 1000` milliseconds whose callback is
`sendWebNotification(title, body)`, and return at once; otherwise run
the same native path as `sendLocalNotification` with a non-repeating
time-interval trigger of `seconds`. -/
def scheduleNotification (env : Env) (st : MState) (title body : String) (seconds : Nat) :
    Except Unit CallResult :=
  if env.os = .web then
    .ok ⟨st, [], [⟨seconds * 1000, title, body⟩]⟩
  else
    match getNotifications env with
    | (none, effs) =>
        .ok ⟨st, effs ++ [.consoleWarn "Notifications not available on this platform"], []⟩
    | (some _, effs) =>
        match nativeTryBlock env st ⟨title, body⟩ (.timeInterval seconds false) with
        | (st1, effs1, .ok _) => .ok ⟨st1, effs ++ effs1, []⟩
        | (st1, effs1, .error _) =>
            .ok ⟨st1, effs ++ effs1 ++
              [.consoleWarn "Failed to schedule notification. Note: Notifications may not work in Expo Go. Use a development build for full functionality."], []⟩

/-- A public call to the module, for reasoning about call sequences. -/
inductive Call
  | send (title body : String)
  | schedule (title body : String) (seconds : Nat)
deriving DecidableEq, Repr

/-- Dispatch one call. -/
def runCall (env : Env) (st : MState) : Call → Except Unit CallResult
  | .send t b => sendLocalNotification env st t b
  | .schedule t b s => scheduleNotification env st t b s

/-- The effects of a call that returned normally (`[]` for a throw,
which the theorems below show never happens). -/
def effectsOf : Except Unit CallResult → List Effect
  | .ok r => r.effects
  | .error _ => []

/-- The module state after a call, with a fallback for a throw. -/
def stateOf (dflt : MState) : Except Unit CallResult → MState
  | .ok r => r.state
  | .error _ => dflt

/-- The timers armed by a call that returned normally. -/
def timersOf : Except Unit CallResult → List Timer
  | .ok r => r.timers
  | .error _ => []

/-- Run a sequence of calls against one fixed environment, threading the
module state and concatenating the emitted effects. -/
def runCalls (env : Env) (st : MState) : List Call → MState × List Effect
  | [] => (st, [])
  | c :: cs =>
      let r := runCall env st c
      let (st2, effs2) := runCalls env (stateOf st r) cs
      (st2, effectsOf r ++ effs2)

/-- Recognizer for `setNotificationHandler` calls in a trace. -/
def isSetHandlerCall : Effect → Bool
  | .setNotificationHandlerCall => true
  | _ => false

/-- Recognizer for `require('expo-notifications')` executions. -/
def isRequireCall : Effect → Bool
  | .requireExpoNotifications _ => true
  | _ => false

/-- Recognizer for `requestPermissionsAsync` calls. -/
def isRequestPermissionsCall : Effect → Bool
  | .requestPermissionsAsyncCall => true
  | _ => false

/-- Recognizer for `scheduleNotificationAsync` calls. -/
def isScheduleCall : Effect → Bool
  | .scheduleNotificationAsyncCall _ _ => true
  | _ => false

/-- Recognizer for `new Notification(...)` constructions. -/
def isNewNotification : Effect → Bool
  | .newNotification _ _ _ => true
  | _ => false

/-- Recognizer for `Notification.requestPermission()` calls. -/
def isWebRequestPermission : Effect → Bool
  | .webRequestPermissionCall => true
  | _ => false

/-- Recognizer for `console.warn` logs. -/
def isWarn : Effect → Bool
  | .consoleWarn _ => true
  | _ => false

/-- Number of effects in a trace satisfying a recognizer. -/
def countEff (p : Effect → Bool) (effs : List Effect) : Nat :=
  (effs.filter p).length

/-! ### Concrete example environments and states

Used by the closed counterexamples and witnesses below. -/

/-- A fully functional native (Android) environment: the require
succeeds, nothing throws, permission is granted. -/
def envNativeOk : Env :=
  ⟨.android, true, false, false, .granted, false, false, false, .default, .default, false, false⟩

/-- Native environment where `setNotificationHandler` always throws
(e.g. the Expo Go limitation the source comments mention). -/
def envHandlerThrows : Env := { envNativeOk with setHandlerThrows := true }

/-- Native environment where `require('expo-notifications')` fails. -/
def envRequireFails : Env := { envNativeOk with requireSucceeds := false }

/-- Native environment where permissions are denied. -/
def envNativeDenied : Env := { envNativeOk with permissionsStatus := .denied }

/-- Web environment, browser capability present, permission granted. -/
def envWebGranted : Env :=
  ⟨.web, false, false, false, .undetermined, false, true, true, .granted, .granted, false, false⟩

/-- Web environment, capability present, permission denied. -/
def envWebDenied : Env :=
  { envWebGranted with webPermission := .denied, webPermissionAfterRequest := .denied }

/-- Web environment, permission undetermined at call time, granted once
the user answers the request. -/
def envWebDefaultGranted : Env := { envWebGranted with webPermission := .default }

/-- Web environment with no browser Notification capability. -/
def envWebNoCapability : Env := { envWebGranted with notificationInWindow := false }

/-- Web environment where the permission is undetermined and
`Notification.requestPermission()` rejects. -/
def envWebRequestThrows : Env :=
  { envWebGranted with webPermission := .default, webRequestThrows := true }

/-- The module state of a fresh process: the flag starts out `false`. -/
def stInit : MState := ⟨false⟩

/-! ### Helper lemmas -/

theorem countEff_cons (p : Effect → Bool) (e : Effect) (l : List Effect) :
    countEff p (e :: l) = (if p e then 1 else 0) + countEff p l := by
  by_cases h : p e <;> simp [countEff, List.filter_cons, h]
  omega

theorem countEff_catchPart (p : Effect → Bool)
    (hw : ∀ msg, p (.consoleWarn msg) = false) (r : Except Unit Unit) (msg : String) :
    countEff p
      (match r with
        | .ok _ => ([] : List Effect)
        | .error _ => [.consoleWarn msg]) = 0 := by
  cases r <;> simp [countEff, hw]

theorem runCalls_cons (env : Env) (st : MState) (c : Call) (cs : List Call) :
    runCalls env st (c :: cs) =
      ((runCalls env (stateOf st (runCall env st c)) cs).1,
       effectsOf (runCall env st c) ++
         (runCalls env (stateOf st (runCall env st c)) cs).2) :=
  rfl

theorem countEff_nil (p : Effect → Bool) : countEff p [] = 0 := rfl

theorem countEff_append (p : Effect → Bool) (a b : List Effect) :
    countEff p (a ++ b) = countEff p a + countEff p b := by
  simp [countEff]

theorem getNotifications_native_ok (env : Env) (hos : env.os ≠ .web)
    (hreq : env.requireSucceeds = true) :
    getNotifications env = (some (), [.requireExpoNotifications true]) := by
  simp [getNotifications, hos, hreq]

theorem getNotifications_native_fail (env : Env) (hos : env.os ≠ .web)
    (hreq : env.requireSucceeds = false) :
    getNotifications env = (none, [.requireExpoNotifications false]) := by
  simp [getNotifications, hos, hreq]

theorem initNotificationHandler_native (env : Env) (st : MState) (hos : env.os ≠ .web) :
    initNotificationHandler env true st =
      (⟨st.handlerRegistered || !env.setHandlerThrows⟩,
        if st.handlerRegistered then [] else [.setNotificationHandlerCall]) := by
  obtain ⟨f⟩ := st
  cases f <;> cases ht : env.setHandlerThrows <;>
    simp [initNotificationHandler, hos, ht]

theorem nativeTryBlock_eq (env : Env) (st : MState) (content : Content) (trigger : Trigger)
    (hos : env.os ≠ .web) :
    nativeTryBlock env st content trigger =
      (⟨st.handlerRegistered || !env.setHandlerThrows⟩,
       (if st.handlerRegistered then [] else [Effect.setNotificationHandlerCall]) ++
         [Effect.requestPermissionsAsyncCall] ++
         (if env.permissionsThrow then []
          else if env.permissionsStatus ≠ .granted then
            [Effect.consoleWarn "Notification permissions not granted"]
          else [Effect.scheduleNotificationAsyncCall content trigger]),
       (if env.permissionsThrow then Except.error ()
        else if env.permissionsStatus ≠ .granted then Except.ok ()
        else if env.scheduleThrows then Except.error () else Except.ok ())) := by
  simp only [nativeTryBlock, initNotificationHandler_native env st hos]
  split_ifs <;> simp_all

theorem sendWebNotification_eq (env : Env) (t b : String) :
    sendWebNotification env t b =
      if !env.hasWindow || !env.notificationInWindow then
        [.consoleWarn "Browser notifications not supported"]
      else
        (sendWebNotificationTry env t b).1 ++
          (match (sendWebNotificationTry env t b).2 with
            | .ok _ => []
            | .error _ => [.consoleWarn "Failed to send web notification:"]) := by
  unfold sendWebNotification
  split
  · simp_all
  · rcases h : sendWebNotificationTry env t b with ⟨effs, r⟩
    simp_all
    cases r <;> simp

theorem sendLocal_web_eq (env : Env) (st : MState) (t b : String) (hos : env.os = .web) :
    sendLocalNotification env st t b = .ok ⟨st, sendWebNotification env t b, []⟩ := by
  simp [sendLocalNotification, hos]

theorem schedule_web_eq (env : Env) (st : MState) (t b : String) (s : Nat)
    (hos : env.os = .web) :
    scheduleNotification env st t b s = .ok ⟨st, [], [⟨s * 1000, t, b⟩]⟩ := by
  simp [scheduleNotification, hos]

theorem sendLocal_native_fail_eq (env : Env) (st : MState) (t b : String)
    (hos : env.os ≠ .web) (hreq : env.requireSucceeds = false) :
    sendLocalNotification env st t b =
      .ok ⟨st, [.requireExpoNotifications false,
                .consoleWarn "Notifications not available on this platform"], []⟩ := by
  unfold sendLocalNotification
  rw [getNotifications_native_fail env hos hreq]
  simp [hos]

theorem schedule_native_fail_eq (env : Env) (st : MState) (t b : String) (s : Nat)
    (hos : env.os ≠ .web) (hreq : env.requireSucceeds = false) :
    scheduleNotification env st t b s =
      .ok ⟨st, [.requireExpoNotifications false,
                .consoleWarn "Notifications not available on this platform"], []⟩ := by
  unfold scheduleNotification
  rw [getNotifications_native_fail env hos hreq]
  simp [hos]

theorem sendLocal_native_eq (env : Env) (st : MState) (t b : String)
    (hos : env.os ≠ .web) (hreq : env.requireSucceeds = true) :
    sendLocalNotification env st t b =
      .ok ⟨(nativeTryBlock env st ⟨t, b⟩ .null).1,
           .requireExpoNotifications true ::
             ((nativeTryBlock env st ⟨t, b⟩ .null).2.1 ++
               (match (nativeTryBlock env st ⟨t, b⟩ .null).2.2 with
                 | .ok _ => []
                 | .error _ =>
                     [.consoleWarn "Failed to send local notification. Note: Notifications may not work in Expo Go. Use a development build for full functionality."])),
           []⟩ := by
  unfold sendLocalNotification
  rw [getNotifications_native_ok env hos hreq]
  rcases h : nativeTryBlock env st ⟨t, b⟩ .null with ⟨st1, effs1, r⟩
  simp [hos, h]
  cases r <;> simp

theorem schedule_native_eq (env : Env) (st : MState) (t b : String) (s : Nat)
    (hos : env.os ≠ .web) (hreq : env.requireSucceeds = true) :
    scheduleNotification env st t b s =
      .ok ⟨(nativeTryBlock env st ⟨t, b⟩ (.timeInterval s false)).1,
           .requireExpoNotifications true ::
             ((nativeTryBlock env st ⟨t, b⟩ (.timeInterval s false)).2.1 ++
               (match (nativeTryBlock env st ⟨t, b⟩ (.timeInterval s false)).2.2 with
                 | .ok _ => []
                 | .error _ =>
                     [.consoleWarn "Failed to schedule notification. Note: Notifications may not work in Expo Go. Use a development build for full functionality."])),
           []⟩ := by
  unfold scheduleNotification
  rw [getNotifications_native_ok env hos hreq]
  rcases h : nativeTryBlock env st ⟨t, b⟩ (.timeInterval s false) with ⟨st1, effs1, r⟩
  simp [hos, h]
  cases r <;> simp

theorem sendWeb_countEff_zero (env : Env) (t b : String) (p : Effect → Bool)
    (hw : ∀ msg, p (.consoleWarn msg) = false)
    (hn : ∀ t2 b2 i, p (.newNotification t2 b2 i) = false)
    (hq : p .webRequestPermissionCall = false) :
    countEff p (sendWebNotification env t b) = 0 := by
  rw [sendWebNotification_eq]
  split
  · simp [countEff, hw]
  · rw [countEff_append]
    have h1 : countEff p (sendWebNotificationTry env t b).1 = 0 := by
      unfold sendWebNotificationTry
      split_ifs <;> simp [countEff, hw, hn, hq]
    have h2 := countEff_catchPart p hw (sendWebNotificationTry env t b).2
      "Failed to send web notification:"
    omega

theorem nativeTryBlock_state (env : Env) (st : MState) (content : Content)
    (trigger : Trigger) (hos : env.os ≠ .web) :
    (nativeTryBlock env st content trigger).1 =
      ⟨st.handlerRegistered || !env.setHandlerThrows⟩ := by
  rw [nativeTryBlock_eq env st content trigger hos]

theorem nativeTryBlock_setHandler_count (env : Env) (st : MState) (content : Content)
    (trigger : Trigger) (hos : env.os ≠ .web) :
    countEff isSetHandlerCall (nativeTryBlock env st content trigger).2.1 =
      if st.handlerRegistered then 0 else 1 := by
  rw [nativeTryBlock_eq env st content trigger hos]
  split_ifs <;> simp [countEff, isSetHandlerCall]

theorem op_native_setHandler (env : Env) (st : MState) (content : Content)
    (trigger : Trigger) (msg : String) (hos : env.os ≠ .web) :
    countEff isSetHandlerCall
        (Effect.requireExpoNotifications true ::
          ((nativeTryBlock env st content trigger).2.1 ++
            (match (nativeTryBlock env st content trigger).2.2 with
              | .ok _ => ([] : List Effect)
              | .error _ => [.consoleWarn msg]))) =
      (if st.handlerRegistered then 0 else 1) := by
  rw [countEff_cons, countEff_append,
      nativeTryBlock_setHandler_count env st content trigger hos,
      countEff_catchPart isSetHandlerCall (fun _ => rfl) _ msg]
  simp [isSetHandlerCall]

theorem sendLocal_setHandler (env : Env) (st : MState) (t b : String)
    (h : env.setHandlerThrows = false) :
    (countEff isSetHandlerCall (effectsOf (sendLocalNotification env st t b)) = 0 ∧
       stateOf st (sendLocalNotification env st t b) = st) ∨
    (st.handlerRegistered = false ∧
       countEff isSetHandlerCall (effectsOf (sendLocalNotification env st t b)) = 1 ∧
       (stateOf st (sendLocalNotification env st t b)).handlerRegistered = true) := by
  by_cases hos : env.os = .web
  · left
    rw [sendLocal_web_eq env st t b hos]
    exact ⟨sendWeb_countEff_zero env t b isSetHandlerCall
      (fun _ => rfl) (fun _ _ _ => rfl) rfl, rfl⟩
  · by_cases hreq : env.requireSucceeds
    · rw [sendLocal_native_eq env st t b hos hreq]
      simp only [effectsOf, stateOf]
      by_cases hr : st.handlerRegistered
      · left
        refine ⟨?_, ?_⟩
        · rw [op_native_setHandler env st ⟨t, b⟩ .null _ hos]
          simp [hr]
        · rw [nativeTryBlock_state env st ⟨t, b⟩ .null hos]
          obtain ⟨f⟩ := st
          simp_all
      · right
        refine ⟨by simpa using hr, ?_, ?_⟩
        · rw [op_native_setHandler env st ⟨t, b⟩ .null _ hos]
          simp [hr]
        · rw [nativeTryBlock_state env st ⟨t, b⟩ .null hos]
          simp [h]
    · left
      rw [sendLocal_native_fail_eq env st t b hos (by simpa using hreq)]
      exact ⟨rfl, rfl⟩

theorem schedule_setHandler (env : Env) (st : MState) (t b : String) (s : Nat)
    (h : env.setHandlerThrows = false) :
    (countEff isSetHandlerCall (effectsOf (scheduleNotification env st t b s)) = 0 ∧
       stateOf st (scheduleNotification env st t b s) = st) ∨
    (st.handlerRegistered = false ∧
       countEff isSetHandlerCall (effectsOf (scheduleNotification env st t b s)) = 1 ∧
       (stateOf st (scheduleNotification env st t b s)).handlerRegistered = true) := by
  by_cases hos : env.os = .web
  · left
    rw [schedule_web_eq env st t b s hos]
    exact ⟨rfl, rfl⟩
  · by_cases hreq : env.requireSucceeds
    · rw [schedule_native_eq env st t b s hos hreq]
      simp only [effectsOf, stateOf]
      by_cases hr : st.handlerRegistered
      · left
        refine ⟨?_, ?_⟩
        · rw [op_native_setHandler env st ⟨t, b⟩ (.timeInterval s false) _ hos]
          simp [hr]
        · rw [nativeTryBlock_state env st ⟨t, b⟩ (.timeInterval s false) hos]
          obtain ⟨f⟩ := st
          simp_all
      · right
        refine ⟨by simpa using hr, ?_, ?_⟩
        · rw [op_native_setHandler env st ⟨t, b⟩ (.timeInterval s false) _ hos]
          simp [hr]
        · rw [nativeTryBlock_state env st ⟨t, b⟩ (.timeInterval s false) hos]
          simp [h]
    · left
      rw [schedule_native_fail_eq env st t b s hos (by simpa using hreq)]
      exact ⟨rfl, rfl⟩

theorem nativeTryBlock_countEff_zero (env : Env) (st : MState) (content : Content)
    (trigger : Trigger) (p : Effect → Bool) (hos : env.os ≠ .web)
    (hs : p .setNotificationHandlerCall = false)
    (hq : p .requestPermissionsAsyncCall = false)
    (hw : ∀ msg, p (.consoleWarn msg) = false)
    (hc : ∀ content2 trigger2, p (.scheduleNotificationAsyncCall content2 trigger2) = false) :
    countEff p (nativeTryBlock env st content trigger).2.1 = 0 := by
  rw [nativeTryBlock_eq env st content trigger hos]
  split_ifs <;> simp [countEff, hs, hq, hw, hc]

theorem sendLocal_require_count (env : Env) (st : MState) (t b : String)
    (hos : env.os ≠ .web) :
    countEff isRequireCall (effectsOf (sendLocalNotification env st t b)) = 1 := by
  by_cases hreq : env.requireSucceeds
  · rw [sendLocal_native_eq env st t b hos hreq]
    simp only [effectsOf]
    rw [countEff_cons, countEff_append,
        nativeTryBlock_countEff_zero env st ⟨t, b⟩ .null isRequireCall hos rfl rfl
          (fun _ => rfl) (fun _ _ => rfl),
        countEff_catchPart isRequireCall (fun _ => rfl) _ _]
    simp [isRequireCall]
  · rw [sendLocal_native_fail_eq env st t b hos (by simpa using hreq)]
    rfl

theorem schedule_require_count (env : Env) (st : MState) (t b : String) (s : Nat)
    (hos : env.os ≠ .web) :
    countEff isRequireCall (effectsOf (scheduleNotification env st t b s)) = 1 := by
  by_cases hreq : env.requireSucceeds
  · rw [schedule_native_eq env st t b s hos hreq]
    simp only [effectsOf]
    rw [countEff_cons, countEff_append,
        nativeTryBlock_countEff_zero env st ⟨t, b⟩ (.timeInterval s false) isRequireCall hos
          rfl rfl (fun _ => rfl) (fun _ _ => rfl),
        countEff_catchPart isRequireCall (fun _ => rfl) _ _]
    simp [isRequireCall]
  · rw [schedule_native_fail_eq env st t b s hos (by simpa using hreq)]
    rfl

theorem require_count_eq_length (env : Env) (st : MState) (calls : List Call)
    (hos : env.os ≠ .web) :
    countEff isRequireCall (runCalls env st calls).2 = calls.length := by
  induction calls generalizing st with
  | nil => simp [runCalls, countEff]
  | cons c cs ih =>
      rw [runCalls_cons, countEff_append]
      have h1 : countEff isRequireCall (effectsOf (runCall env st c)) = 1 := by
        cases c with
        | send t b => exact sendLocal_require_count env st t b hos
        | schedule t b s => exact schedule_require_count env st t b s hos
      rw [h1, ih]
      simp [Nat.add_comm]

theorem runCall_setHandler_cases (env : Env) (st : MState) (c : Call)
    (h : env.setHandlerThrows = false) :
    (countEff isSetHandlerCall (effectsOf (runCall env st c)) = 0 ∧
       stateOf st (runCall env st c) = st) ∨
    (st.handlerRegistered = false ∧
       countEff isSetHandlerCall (effectsOf (runCall env st c)) = 1 ∧
       (stateOf st (runCall env st c)).handlerRegistered = true) := by
  cases c with
  | send t b => exact sendLocal_setHandler env st t b h
  | schedule t b s => exact schedule_setHandler env st t b s h

theorem setHandler_count_le (env : Env) (st : MState) (calls : List Call)
    (h : env.setHandlerThrows = false) :
    countEff isSetHandlerCall (runCalls env st calls).2 ≤
      (if st.handlerRegistered then 0 else 1) := by
  induction calls generalizing st with
  | nil => simp [runCalls, countEff]
  | cons c cs ih =>
      rw [runCalls_cons, countEff_append]
      rcases runCall_setHandler_cases env st c h with ⟨h0, hst⟩ | ⟨hr, h1, hflag⟩
      · rw [h0, hst]
        have := ih st
        omega
      · have hrest := ih (stateOf st (runCall env st c))
        rw [hflag] at hrest
        simp at hrest
        rw [h1, hr]
        simp [hrest]

theorem sendWebTry_denied (env : Env) (t b : String)
    (hp : env.webPermission = .denied) :
    sendWebNotificationTry env t b =
      ([.consoleWarn "Notification permission denied"], .ok ()) := by
  simp [sendWebNotificationTry, hp]

theorem sendWeb_present_eq (env : Env) (t b : String)
    (hw : env.hasWindow = true) (hn : env.notificationInWindow = true) :
    sendWebNotification env t b =
      (sendWebNotificationTry env t b).1 ++
        (match (sendWebNotificationTry env t b).2 with
          | .ok _ => ([] : List Effect)
          | .error _ => [.consoleWarn "Failed to send web notification:"]) := by
  rw [sendWebNotification_eq]
  simp [hw, hn]

theorem sendWeb_denied_eq (env : Env) (t b : String)
    (hw : env.hasWindow = true) (hn : env.notificationInWindow = true)
    (hp : env.webPermission = .denied) :
    sendWebNotification env t b = [.consoleWarn "Notification permission denied"] := by
  rw [sendWeb_present_eq env t b hw hn, sendWebTry_denied env t b hp]
  rfl

theorem sendWebTry_granted (env : Env) (t b : String)
    (hp : env.webPermission = .granted) (hc : env.webConstructorThrows = false) :
    sendWebNotificationTry env t b = ([.newNotification t b false], .ok ()) := by
  simp [sendWebNotificationTry, hp, hc]

theorem sendWebTry_default_granted (env : Env) (t b : String)
    (hp : env.webPermission = .default) (hr : env.webRequestThrows = false)
    (hg : env.webPermissionAfterRequest = .granted)
    (hc : env.webConstructorThrows = false) :
    sendWebNotificationTry env t b =
      ([.webRequestPermissionCall, .newNotification t b false], .ok ()) := by
  simp [sendWebNotificationTry, hp, hr, hg, hc]

theorem sendWebTry_default_notGranted (env : Env) (t b : String)
    (hp : env.webPermission = .default) (hr : env.webRequestThrows = false)
    (hg : env.webPermissionAfterRequest ≠ .granted) :
    sendWebNotificationTry env t b =
      ([.webRequestPermissionCall, .consoleWarn "Notification permission denied"],
        .ok ()) := by
  simp [sendWebNotificationTry, hp, hr, hg]

theorem sendWebTry_default_requestThrows (env : Env) (t b : String)
    (hp : env.webPermission = .default) (hr : env.webRequestThrows = true) :
    sendWebNotificationTry env t b = ([.webRequestPermissionCall], .error ()) := by
  simp [sendWebNotificationTry, hp, hr]

theorem sendWebTry_granted_ctorThrows (env : Env) (t b : String)
    (hp : env.webPermission = .granted) (hc : env.webConstructorThrows = true) :
    sendWebNotificationTry env t b = ([.newNotification t b false], .error ()) := by
  simp [sendWebNotificationTry, hp, hc]

theorem sendWebTry_default_granted_ctorThrows (env : Env) (t b : String)
    (hp : env.webPermission = .default) (hr : env.webRequestThrows = false)
    (hg : env.webPermissionAfterRequest = .granted)
    (hc : env.webConstructorThrows = true) :
    sendWebNotificationTry env t b =
      ([.webRequestPermissionCall, .newNotification t b false], .error ()) := by
  simp [sendWebNotificationTry, hp, hr, hg, hc]

theorem op_native_warn_count (env : Env) (st : MState) (content : Content)
    (trigger : Trigger) (msg : String) (hos : env.os ≠ .web) :
    countEff isWarn
        (Effect.requireExpoNotifications true ::
          ((nativeTryBlock env st content trigger).2.1 ++
            (match (nativeTryBlock env st content trigger).2.2 with
              | .ok _ => ([] : List Effect)
              | .error _ => [.consoleWarn msg]))) =
      (if env.permissionsThrow then 1
       else if env.permissionsStatus ≠ .granted then 1
       else if env.scheduleThrows then 1 else 0) := by
  rw [nativeTryBlock_eq env st content trigger hos]
  split_ifs <;> simp_all [countEff, isWarn]

theorem sendLocal_isOk (env : Env) (st : MState) (t b : String) :
    (sendLocalNotification env st t b).isOk = true := by
  unfold sendLocalNotification
  split
  · rfl
  · split
    · rfl
    · split <;> rfl

theorem schedule_isOk (env : Env) (st : MState) (t b : String) (s : Nat) :
    (scheduleNotification env st t b s).isOk = true := by
  unfold scheduleNotification
  split
  · rfl
  · split
    · rfl
    · split <;> rfl

/-! ### Claim theorems -/

/-- C1 counterexample: the conjunct "every platform-call failure is
caught and converted to a logged warning" is false.  In a native
environment where `setNotificationHandler` throws and everything else
succeeds, both operations execute the registration call (which fails)
yet log zero warnings: `initializeNotificationHandler` swallows the
throw silently. -/
theorem claim1_counterexample :
    envHandlerThrows.setHandlerThrows = true ∧
    countEff isSetHandlerCall
      (effectsOf (sendLocalNotification envHandlerThrows stInit "t" "b")) = 1 ∧
    countEff isWarn (effectsOf (sendLocalNotification envHandlerThrows stInit "t" "b")) = 0 ∧
    countEff isSetHandlerCall
      (effectsOf (scheduleNotification envHandlerThrows stInit "t" "b" 5)) = 1 ∧
    countEff isWarn (effectsOf (scheduleNotification envHandlerThrows stInit "t" "b" 5)) = 0 := by
  decide

/-- C1 (amended): for every platform identity and all inputs, neither
operation ever raises an uncaught failure: every platform-call failure
is caught and the operation returns normally.  Every such failure is
converted to a logged warning — a failing require, a rejecting
`requestPermissionsAsync`, a rejecting `scheduleNotificationAsync`, a
rejecting browser `requestPermission`, a throwing `new Notification` —
except a throwing `setNotificationHandler`, which is swallowed silently
with no warning while the operation continues.  The conjuncts below
state: (1) both operations always return `.ok`; (2) on native, one
warning for the require/permission/schedule failure paths and zero
warnings when only `setNotificationHandler` throws; (3) on the web
display path, one warning when `requestPermission` rejects or the
constructor throws. -/
theorem claim1_amended (env : Env) (st : MState)
    (title body : String) (seconds : Nat) :
    ((sendLocalNotification env st title body).isOk = true ∧
     (scheduleNotification env st title body seconds).isOk = true) ∧
    (env.os ≠ .web →
      (env.requireSucceeds = false →
        countEff isWarn (effectsOf (sendLocalNotification env st title body)) = 1 ∧
        countEff isWarn (effectsOf (scheduleNotification env st title body seconds)) = 1) ∧
      (env.requireSucceeds = true → env.permissionsThrow = true →
        countEff isWarn (effectsOf (sendLocalNotification env st title body)) = 1 ∧
        countEff isWarn (effectsOf (scheduleNotification env st title body seconds)) = 1) ∧
      (env.requireSucceeds = true → env.permissionsThrow = false →
          env.permissionsStatus = .granted → env.scheduleThrows = true →
        countEff isWarn (effectsOf (sendLocalNotification env st title body)) = 1 ∧
        countEff isWarn (effectsOf (scheduleNotification env st title body seconds)) = 1) ∧
      (env.requireSucceeds = true → env.setHandlerThrows = true →
          env.permissionsThrow = false → env.permissionsStatus = .granted →
          env.scheduleThrows = false →
        countEff isWarn (effectsOf (sendLocalNotification env st title body)) = 0 ∧
        countEff isWarn (effectsOf (scheduleNotification env st title body seconds)) = 0)) ∧
    (env.hasWindow = true → env.notificationInWindow = true →
      (env.webPermission = .default → env.webRequestThrows = true →
        countEff isWarn (sendWebNotification env title body) = 1) ∧
      ((if env.webPermission = .default then env.webPermissionAfterRequest
          else env.webPermission) = .granted →
        env.webRequestThrows = false → env.webConstructorThrows = true →
        countEff isWarn (sendWebNotification env title body) = 1)) := by
  refine ⟨⟨sendLocal_isOk env st title body, schedule_isOk env st title body seconds⟩,
    ?_, ?_⟩
  · intro hos
    refine ⟨?_, ?_, ?_, ?_⟩
    · intro hreq
      rw [sendLocal_native_fail_eq env st title body hos hreq,
          schedule_native_fail_eq env st title body seconds hos hreq]
      exact ⟨rfl, rfl⟩
    · intro hreq hpt
      rw [sendLocal_native_eq env st title body hos hreq,
          schedule_native_eq env st title body seconds hos hreq]
      simp only [effectsOf]
      rw [op_native_warn_count env st ⟨title, body⟩ .null _ hos,
          op_native_warn_count env st ⟨title, body⟩ (.timeInterval seconds false) _ hos]
      simp [hpt]
    · intro hreq hpt hps hsch
      rw [sendLocal_native_eq env st title body hos hreq,
          schedule_native_eq env st title body seconds hos hreq]
      simp only [effectsOf]
      rw [op_native_warn_count env st ⟨title, body⟩ .null _ hos,
          op_native_warn_count env st ⟨title, body⟩ (.timeInterval seconds false) _ hos]
      simp [hpt, hps, hsch]
    · intro hreq hth hpt hps hsch
      rw [sendLocal_native_eq env st title body hos hreq,
          schedule_native_eq env st title body seconds hos hreq]
      simp only [effectsOf]
      rw [op_native_warn_count env st ⟨title, body⟩ .null _ hos,
          op_native_warn_count env st ⟨title, body⟩ (.timeInterval seconds false) _ hos]
      simp [hpt, hps, hsch]
  · intro hw hn
    constructor
    · intro hp hr
      rw [sendWeb_present_eq env title body hw hn,
          sendWebTry_default_requestThrows env title body hp hr]
      rfl
    · intro hg hr hc
      cases hp : env.webPermission with
      | granted =>
          rw [sendWeb_present_eq env title body hw hn,
              sendWebTry_granted_ctorThrows env title body hp hc]
          rfl
      | denied =>
          rw [hp] at hg
          simp at hg
      | default =>
          rw [hp] at hg
          simp at hg
          rw [sendWeb_present_eq env title body hw hn,
              sendWebTry_default_granted_ctorThrows env title body hp hr hg hc]
          rfl

/-- Witness for C1 (amended): the always-ok conjunct and the
silent-swallow conjunct at the throwing-registration environment, the
one-warning conjunct at a failing-require environment, and the web
request-rejection conjunct at a concrete web environment. -/
theorem claim1_amended_witness :
    (sendLocalNotification envHandlerThrows stInit "t" "b").isOk = true ∧
    countEff isWarn (effectsOf (sendLocalNotification envRequireFails stInit "t" "b")) = 1 ∧
    countEff isWarn (effectsOf (sendLocalNotification envHandlerThrows stInit "t" "b")) = 0 ∧
    countEff isWarn (sendWebNotification envWebRequestThrows "t" "b") = 1 :=
  ⟨(claim1_amended envHandlerThrows stInit "t" "b" 5).1.1,
   (((claim1_amended envRequireFails stInit "t" "b" 5).2.1 (by decide)).1 rfl).1,
   (((claim1_amended envHandlerThrows stInit "t" "b" 5).2.1 (by decide)).2.2.2
      rfl rfl rfl rfl rfl).1,
   ((claim1_amended envWebRequestThrows stInit "t" "b" 5).2.2 rfl rfl).1 rfl rfl⟩

/-- C2 counterexample: the claim "the setNotificationHandler call
executes at most once regardless of how many send/schedule calls occur"
is false as stated.  In a native environment where
`setNotificationHandler` throws (the Expo Go situation the source
comments anticipate), the flag is never set, so two calls to
`sendLocalNotification` execute the registration call twice. -/
theorem claim2_counterexample :
    ¬ countEff isSetHandlerCall
        (runCalls envHandlerThrows stInit [.send "t" "b", .send "t" "b"]).2 ≤ 1 := by
  decide

/-- C2 (amended): provided the `setNotificationHandler` call does not
throw, the registration call executes at most once across any number of
`sendLocalNotification` / `scheduleNotification` calls within one
process lifetime (starting from the fresh-process state).  In general
the code guarantees at most one *successful* registration, but a
throwing registration call is retried on each subsequent native call. -/
theorem claim2_amended (env : Env) (calls : List Call)
    (h : env.setHandlerThrows = false) :
    countEff isSetHandlerCall (runCalls env stInit calls).2 ≤ 1 := by
  have := setHandler_count_le env stInit calls h
  simpa [stInit] using this

/-- Witness for C2 (amended) at a concrete environment and call list. -/
theorem claim2_amended_witness :
    countEff isSetHandlerCall
        (runCalls envNativeOk stInit
          [.send "t" "b", .schedule "t" "b" 5, .send "u" "v"]).2 ≤ 1 :=
  claim2_amended envNativeOk [.send "t" "b", .schedule "t" "b" 5, .send "u" "v"] rfl

/-- C6 counterexample: the claim "the require of the capability library
executes at most once across any number of calls" is false.  The module
caches no handle: `getNotifications` evaluates
`require('expo-notifications')` afresh on every native call, so one
send plus one schedule already execute it twice. -/
theorem claim6_counterexample :
    ¬ countEff isRequireCall
        (runCalls envNativeOk stInit [.send "t" "b", .schedule "t" "b" 5]).2 ≤ 1 := by
  decide

/-- C6 (amended): the module keeps no module-level cache of the
capability handle; on a native platform the resolution step (the
`require` inside `getNotifications`) executes exactly once per
send/schedule call — `calls.length` times over a call sequence.  The
only process-wide cached state is the boolean handler-registration
flag. -/
theorem claim6_amended (env : Env) (st : MState) (calls : List Call)
    (hos : env.os ≠ .web) :
    countEff isRequireCall (runCalls env st calls).2 = calls.length :=
  require_count_eq_length env st calls hos

/-- Witness for C6 (amended) at a concrete environment and call list. -/
theorem claim6_amended_witness :
    countEff isRequireCall
        (runCalls envNativeOk stInit [.send "t" "b", .schedule "t" "b" 5]).2 = 2 :=
  claim6_amended envNativeOk stInit [.send "t" "b", .schedule "t" "b" 5] (by decide)

/-- C3: in a native environment with the capability resolved and
permission granted, `sendLocalNotification` issues exactly one schedule
call, with the immediate trigger `null` and content carrying the passed
title and body; `scheduleNotification` issues exactly one schedule
call, with a non-repeating time-interval trigger of the passed seconds
and the same content. -/
theorem claim3_granted_native_schedule (env : Env) (st : MState)
    (title body : String) (seconds : Nat)
    (hos : env.os ≠ .web) (hreq : env.requireSucceeds = true)
    (hpt : env.permissionsThrow = false) (hps : env.permissionsStatus = .granted) :
    (effectsOf (sendLocalNotification env st title body)).filter isScheduleCall =
      [.scheduleNotificationAsyncCall ⟨title, body⟩ .null] ∧
    (effectsOf (scheduleNotification env st title body seconds)).filter isScheduleCall =
      [.scheduleNotificationAsyncCall ⟨title, body⟩ (.timeInterval seconds false)] := by
  constructor
  · rw [sendLocal_native_eq env st title body hos hreq]
    simp only [effectsOf]
    rw [nativeTryBlock_eq env st ⟨title, body⟩ .null hos]
    simp only [hpt, hps]
    split_ifs <;> simp_all [isScheduleCall]
  · rw [schedule_native_eq env st title body seconds hos hreq]
    simp only [effectsOf]
    rw [nativeTryBlock_eq env st ⟨title, body⟩ (.timeInterval seconds false) hos]
    simp only [hpt, hps]
    split_ifs <;> simp_all [isScheduleCall]

/-- Witness for C3 at a concrete native environment. -/
theorem claim3_witness :
    (effectsOf (sendLocalNotification envNativeOk stInit "t" "b")).filter isScheduleCall =
      [.scheduleNotificationAsyncCall ⟨"t", "b"⟩ .null] ∧
    (effectsOf (scheduleNotification envNativeOk stInit "t" "b" 5)).filter isScheduleCall =
      [.scheduleNotificationAsyncCall ⟨"t", "b"⟩ (.timeInterval 5 false)] :=
  claim3_granted_native_schedule envNativeOk stInit "t" "b" 5 (by decide) rfl rfl rfl

/-- C4: with permission denied, no notification is scheduled or
displayed and exactly one warning is logged.  On a native platform
(capability resolved, `requestPermissionsAsync` resolves with a status
other than granted) both operations emit no schedule call, no display,
and exactly one warning.  On web (capability present, browser
permission denied) `sendLocalNotification` displays nothing and logs
exactly one warning; `scheduleNotification` emits nothing at call time,
and the armed timer, when it fires, displays nothing and logs exactly
one warning. -/
theorem claim4_denied_no_display_one_warning (env : Env) (st : MState)
    (title body : String) (seconds : Nat) :
    (env.os ≠ .web → env.requireSucceeds = true → env.permissionsThrow = false →
      env.permissionsStatus ≠ .granted →
      (countEff isScheduleCall (effectsOf (sendLocalNotification env st title body)) = 0 ∧
       countEff isNewNotification (effectsOf (sendLocalNotification env st title body)) = 0 ∧
       countEff isWarn (effectsOf (sendLocalNotification env st title body)) = 1) ∧
      (countEff isScheduleCall (effectsOf (scheduleNotification env st title body seconds)) = 0 ∧
       countEff isNewNotification (effectsOf (scheduleNotification env st title body seconds)) = 0 ∧
       countEff isWarn (effectsOf (scheduleNotification env st title body seconds)) = 1)) ∧
    (env.os = .web → env.hasWindow = true → env.notificationInWindow = true →
      env.webPermission = .denied →
      (countEff isNewNotification (effectsOf (sendLocalNotification env st title body)) = 0 ∧
       countEff isWarn (effectsOf (sendLocalNotification env st title body)) = 1) ∧
      (effectsOf (scheduleNotification env st title body seconds) = [] ∧
       ∀ tm ∈ timersOf (scheduleNotification env st title body seconds),
         countEff isNewNotification (fireTimer env tm) = 0 ∧
         countEff isWarn (fireTimer env tm) = 1)) := by
  constructor
  · intro hos hreq hpt hps
    constructor
    · rw [sendLocal_native_eq env st title body hos hreq]
      simp only [effectsOf]
      rw [nativeTryBlock_eq env st ⟨title, body⟩ .null hos]
      simp only [hpt, hps]
      split_ifs <;>
        simp_all [countEff, isScheduleCall, isNewNotification, isWarn]
    · rw [schedule_native_eq env st title body seconds hos hreq]
      simp only [effectsOf]
      rw [nativeTryBlock_eq env st ⟨title, body⟩ (.timeInterval seconds false) hos]
      simp only [hpt, hps]
      split_ifs <;>
        simp_all [countEff, isScheduleCall, isNewNotification, isWarn]
  · intro hos hw hn hp
    refine ⟨?_, ?_, ?_⟩
    · rw [sendLocal_web_eq env st title body hos]
      simp only [effectsOf]
      rw [sendWeb_denied_eq env title body hw hn hp]
      exact ⟨rfl, rfl⟩
    · rw [schedule_web_eq env st title body seconds hos]
      rfl
    · rw [schedule_web_eq env st title body seconds hos]
      intro tm htm
      simp only [timersOf, List.mem_singleton] at htm
      subst htm
      unfold fireTimer
      rw [sendWeb_denied_eq env title body hw hn hp]
      exact ⟨rfl, rfl⟩

/-- Witness for C4: the native conjunct at a denied native environment
and the web conjunct at a denied web environment. -/
theorem claim4_witness :
    ((countEff isScheduleCall (effectsOf (sendLocalNotification envNativeDenied stInit "t" "b")) = 0 ∧
      countEff isNewNotification (effectsOf (sendLocalNotification envNativeDenied stInit "t" "b")) = 0 ∧
      countEff isWarn (effectsOf (sendLocalNotification envNativeDenied stInit "t" "b")) = 1) ∧
     (countEff isScheduleCall (effectsOf (scheduleNotification envNativeDenied stInit "t" "b" 5)) = 0 ∧
      countEff isNewNotification (effectsOf (scheduleNotification envNativeDenied stInit "t" "b" 5)) = 0 ∧
      countEff isWarn (effectsOf (scheduleNotification envNativeDenied stInit "t" "b" 5)) = 1)) ∧
    ((countEff isNewNotification (effectsOf (sendLocalNotification envWebDenied stInit "t" "b")) = 0 ∧
      countEff isWarn (effectsOf (sendLocalNotification envWebDenied stInit "t" "b")) = 1) ∧
     (effectsOf (scheduleNotification envWebDenied stInit "t" "b" 5) = [] ∧
      ∀ tm ∈ timersOf (scheduleNotification envWebDenied stInit "t" "b" 5),
        countEff isNewNotification (fireTimer envWebDenied tm) = 0 ∧
        countEff isWarn (fireTimer envWebDenied tm) = 1)) :=
  ⟨(claim4_denied_no_display_one_warning envNativeDenied stInit "t" "b" 5).1
      (by decide) rfl rfl (by decide),
   (claim4_denied_no_display_one_warning envWebDenied stInit "t" "b" 5).2
      rfl rfl rfl rfl⟩

/-- C5: on a native platform where the capability module cannot be
resolved (the lazy require fails), both operations emit exactly the
failed require plus one warning: no handler registration, no permission
request, no schedule call. -/
theorem claim5_unresolvable_capability (env : Env) (st : MState)
    (title body : String) (seconds : Nat)
    (hos : env.os ≠ .web) (hreq : env.requireSucceeds = false) :
    effectsOf (sendLocalNotification env st title body) =
      [.requireExpoNotifications false,
       .consoleWarn "Notifications not available on this platform"] ∧
    effectsOf (scheduleNotification env st title body seconds) =
      [.requireExpoNotifications false,
       .consoleWarn "Notifications not available on this platform"] ∧
    countEff isSetHandlerCall (effectsOf (sendLocalNotification env st title body)) = 0 ∧
    countEff isRequestPermissionsCall (effectsOf (sendLocalNotification env st title body)) = 0 ∧
    countEff isScheduleCall (effectsOf (sendLocalNotification env st title body)) = 0 ∧
    countEff isWarn (effectsOf (sendLocalNotification env st title body)) = 1 ∧
    countEff isSetHandlerCall (effectsOf (scheduleNotification env st title body seconds)) = 0 ∧
    countEff isRequestPermissionsCall (effectsOf (scheduleNotification env st title body seconds)) = 0 ∧
    countEff isScheduleCall (effectsOf (scheduleNotification env st title body seconds)) = 0 ∧
    countEff isWarn (effectsOf (scheduleNotification env st title body seconds)) = 1 := by
  rw [sendLocal_native_fail_eq env st title body hos hreq,
      schedule_native_fail_eq env st title body seconds hos hreq]
  exact ⟨rfl, rfl, rfl, rfl, rfl, rfl, rfl, rfl, rfl, rfl⟩

/-- Witness for C5 at a concrete native environment with a failing
require. -/
theorem claim5_witness :
    effectsOf (sendLocalNotification envRequireFails stInit "t" "b") =
      [.requireExpoNotifications false,
       .consoleWarn "Notifications not available on this platform"] ∧
    effectsOf (scheduleNotification envRequireFails stInit "t" "b" 5) =
      [.requireExpoNotifications false,
       .consoleWarn "Notifications not available on this platform"] ∧
    countEff isSetHandlerCall (effectsOf (sendLocalNotification envRequireFails stInit "t" "b")) = 0 ∧
    countEff isRequestPermissionsCall (effectsOf (sendLocalNotification envRequireFails stInit "t" "b")) = 0 ∧
    countEff isScheduleCall (effectsOf (sendLocalNotification envRequireFails stInit "t" "b")) = 0 ∧
    countEff isWarn (effectsOf (sendLocalNotification envRequireFails stInit "t" "b")) = 1 ∧
    countEff isSetHandlerCall (effectsOf (scheduleNotification envRequireFails stInit "t" "b" 5)) = 0 ∧
    countEff isRequestPermissionsCall (effectsOf (scheduleNotification envRequireFails stInit "t" "b" 5)) = 0 ∧
    countEff isScheduleCall (effectsOf (scheduleNotification envRequireFails stInit "t" "b" 5)) = 0 ∧
    countEff isWarn (effectsOf (scheduleNotification envRequireFails stInit "t" "b" 5)) = 1 :=
  claim5_unresolvable_capability envRequireFails stInit "t" "b" 5 (by decide) rfl

/-- C7: web behavior of `sendLocalNotification`.  If the browser
capability is absent, it logs exactly the unsupported warning and does
nothing else.  Otherwise (with the underlying browser calls not
throwing): it requests permission exactly when the state is
undetermined; if the resulting permission state is granted, it
constructs exactly one notification with the given title and body and
no icon override; if not granted, it displays nothing and logs the
denied warning. -/
theorem claim7_web_send_behavior (env : Env) (st : MState) (title body : String)
    (hos : env.os = .web) :
    ((env.hasWindow = false ∨ env.notificationInWindow = false) →
        effectsOf (sendLocalNotification env st title body) =
          [.consoleWarn "Browser notifications not supported"]) ∧
    (env.hasWindow = true → env.notificationInWindow = true →
        env.webRequestThrows = false → env.webConstructorThrows = false →
      countEff isWebRequestPermission (effectsOf (sendLocalNotification env st title body)) =
        (if env.webPermission = .default then 1 else 0) ∧
      ((if env.webPermission = .default then env.webPermissionAfterRequest
          else env.webPermission) = .granted →
        (effectsOf (sendLocalNotification env st title body)).filter isNewNotification =
          [.newNotification title body false]) ∧
      ((if env.webPermission = .default then env.webPermissionAfterRequest
          else env.webPermission) ≠ .granted →
        countEff isNewNotification (effectsOf (sendLocalNotification env st title body)) = 0 ∧
          Effect.consoleWarn "Notification permission denied" ∈
            effectsOf (sendLocalNotification env st title body))) := by
  rw [sendLocal_web_eq env st title body hos]
  simp only [effectsOf]
  constructor
  · rintro (h | h) <;> simp [sendWebNotification_eq, h]
  · intro hw hn hrt hct
    rw [sendWeb_present_eq env title body hw hn]
    cases hp : env.webPermission with
    | granted =>
        rw [sendWebTry_granted env title body hp hct]
        exact ⟨rfl, fun _ => rfl, fun hcontra => by simp at hcontra⟩
    | denied =>
        rw [sendWebTry_denied env title body hp]
        exact ⟨rfl, fun hcontra => by simp at hcontra, fun _ => ⟨rfl, by simp⟩⟩
    | default =>
        by_cases hg : env.webPermissionAfterRequest = .granted
        · rw [sendWebTry_default_granted env title body hp hrt hg hct]
          exact ⟨rfl, fun _ => rfl, fun hcontra => by simp [hg] at hcontra⟩
        · rw [sendWebTry_default_notGranted env title body hp hrt hg]
          exact ⟨rfl, fun hcontra => by simp at hcontra; exact absurd hcontra hg,
            fun _ => ⟨rfl, by simp⟩⟩

/-- Witness for C7: the capability-absent conjunct at a concrete
unsupported environment, and the present-capability conjunct at a
concrete granted-after-request environment. -/
theorem claim7_witness :
    (effectsOf (sendLocalNotification envWebNoCapability stInit "t" "b") =
      [.consoleWarn "Browser notifications not supported"]) ∧
    ((effectsOf (sendLocalNotification envWebDefaultGranted stInit "t" "b")).filter
        isNewNotification = [.newNotification "t" "b" false]) :=
  ⟨(claim7_web_send_behavior envWebNoCapability stInit "t" "b" rfl).1 (Or.inr rfl),
   ((claim7_web_send_behavior envWebDefaultGranted stInit "t" "b" rfl).2
      rfl rfl rfl rfl).2.1 rfl⟩

/-- C8: on web, `scheduleNotification` returns immediately having armed
exactly one timer of `seconds * 1000` milliseconds capturing the passed
title and body, displays nothing at call time, and returns no
cancellation handle (the result carries only the unchanged state, an
empty effect trace, and the timer).  Firing the timer runs exactly
`sendWebNotification` — the same display logic as
`sendLocalNotification`'s web path — with the same title and body,
against the environment at firing time. -/
theorem claim8_web_schedule_same_display_logic (env : Env) (st : MState)
    (title body : String) (seconds : Nat) (hos : env.os = .web) :
    scheduleNotification env st title body seconds =
      .ok ⟨st, [], [⟨seconds * 1000, title, body⟩]⟩ ∧
    countEff isNewNotification (effectsOf (scheduleNotification env st title body seconds)) = 0 ∧
    (∀ envAtFire : Env,
      fireTimer envAtFire ⟨seconds * 1000, title, body⟩ =
        sendWebNotification envAtFire title body) := by
  refine ⟨schedule_web_eq env st title body seconds hos, ?_, fun _ => rfl⟩
  rw [schedule_web_eq env st title body seconds hos]
  rfl

/-- Witness for C8 at a concrete web environment. -/
theorem claim8_witness :
    scheduleNotification envWebGranted stInit "t" "b" 5 =
      .ok ⟨stInit, [], [⟨5000, "t", "b"⟩]⟩ ∧
    countEff isNewNotification (effectsOf (scheduleNotification envWebGranted stInit "t" "b" 5)) = 0 ∧
    (∀ envAtFire : Env,
      fireTimer envAtFire ⟨5000, "t", "b"⟩ = sendWebNotification envAtFire "t" "b") :=
  claim8_web_schedule_same_display_logic envWebGranted stInit "t" "b" 5 rfl

/-- C9: the handler-registration flag becomes true only when the
`setNotificationHandler` call returns without throwing.  On a native
platform with the capability resolved and the flag not yet set: if the
registration call does not throw, the flag is true after either
operation; if it throws, either operation still emitted exactly one
registration attempt, the flag remains false, and the next call —
whether `sendLocalNotification` or `scheduleNotification` — attempts
`setNotificationHandler` again (one more registration call). -/
theorem claim9_flag_only_after_success (env : Env) (st : MState)
    (title body : String) (seconds : Nat)
    (hos : env.os ≠ .web) (hreq : env.requireSucceeds = true)
    (hst : st.handlerRegistered = false) :
    (env.setHandlerThrows = false →
       (stateOf st (sendLocalNotification env st title body)).handlerRegistered = true ∧
       (stateOf st (scheduleNotification env st title body seconds)).handlerRegistered
         = true) ∧
    (env.setHandlerThrows = true →
       countEff isSetHandlerCall (effectsOf (sendLocalNotification env st title body)) = 1 ∧
       (stateOf st (sendLocalNotification env st title body)).handlerRegistered = false ∧
       countEff isSetHandlerCall
         (effectsOf (sendLocalNotification env
            (stateOf st (sendLocalNotification env st title body)) title body)) = 1 ∧
       countEff isSetHandlerCall
         (effectsOf (scheduleNotification env
            (stateOf st (sendLocalNotification env st title body)) title body seconds)) = 1 ∧
       countEff isSetHandlerCall
         (effectsOf (scheduleNotification env st title body seconds)) = 1 ∧
       (stateOf st (scheduleNotification env st title body seconds)).handlerRegistered
         = false ∧
       countEff isSetHandlerCall
         (effectsOf (sendLocalNotification env
            (stateOf st (scheduleNotification env st title body seconds)) title body)) = 1 ∧
       countEff isSetHandlerCall
         (effectsOf (scheduleNotification env
            (stateOf st (scheduleNotification env st title body seconds))
            title body seconds)) = 1) := by
  have hstate_send : ∀ st2 : MState,
      stateOf st2 (sendLocalNotification env st2 title body) =
        (nativeTryBlock env st2 ⟨title, body⟩ .null).1 := by
    intro st2
    rw [sendLocal_native_eq env st2 title body hos hreq]
    rfl
  have hstate_sched : ∀ st2 : MState,
      stateOf st2 (scheduleNotification env st2 title body seconds) =
        (nativeTryBlock env st2 ⟨title, body⟩ (.timeInterval seconds false)).1 := by
    intro st2
    rw [schedule_native_eq env st2 title body seconds hos hreq]
    rfl
  have hcount_send : ∀ st2 : MState,
      countEff isSetHandlerCall (effectsOf (sendLocalNotification env st2 title body)) =
        (if st2.handlerRegistered then 0 else 1) := by
    intro st2
    rw [sendLocal_native_eq env st2 title body hos hreq]
    simp only [effectsOf]
    exact op_native_setHandler env st2 ⟨title, body⟩ .null _ hos
  have hcount_sched : ∀ st2 : MState,
      countEff isSetHandlerCall
          (effectsOf (scheduleNotification env st2 title body seconds)) =
        (if st2.handlerRegistered then 0 else 1) := by
    intro st2
    rw [schedule_native_eq env st2 title body seconds hos hreq]
    simp only [effectsOf]
    exact op_native_setHandler env st2 ⟨title, body⟩ (.timeInterval seconds false) _ hos
  constructor
  · intro h
    rw [hstate_send st, hstate_sched st,
        nativeTryBlock_state env st ⟨title, body⟩ .null hos,
        nativeTryBlock_state env st ⟨title, body⟩ (.timeInterval seconds false) hos]
    simp [h]
  · intro h
    have hafter_send :
        (stateOf st (sendLocalNotification env st title body)).handlerRegistered
          = false := by
      rw [hstate_send st, nativeTryBlock_state env st ⟨title, body⟩ .null hos]
      simp [h, hst]
    have hafter_sched :
        (stateOf st (scheduleNotification env st title body seconds)).handlerRegistered
          = false := by
      rw [hstate_sched st,
          nativeTryBlock_state env st ⟨title, body⟩ (.timeInterval seconds false) hos]
      simp [h, hst]
    refine ⟨by rw [hcount_send st]; simp [hst], hafter_send,
      by rw [hcount_send (stateOf st (sendLocalNotification env st title body))]
         simp [hafter_send],
      by rw [hcount_sched (stateOf st (sendLocalNotification env st title body))]
         simp [hafter_send],
      by rw [hcount_sched st]; simp [hst], hafter_sched,
      by rw [hcount_send (stateOf st (scheduleNotification env st title body seconds))]
         simp [hafter_sched],
      by rw [hcount_sched (stateOf st (scheduleNotification env st title body seconds))]
         simp [hafter_sched]⟩

/-- Witness for C9: the no-throw conjunct at a working native
environment and the throwing conjunct — both operations, both retry
orders — at a native environment whose `setNotificationHandler` always
throws. -/
theorem claim9_witness :
    ((stateOf stInit (sendLocalNotification envNativeOk stInit "t" "b")).handlerRegistered
        = true ∧
     (stateOf stInit (scheduleNotification envNativeOk stInit "t" "b" 5)).handlerRegistered
        = true) ∧
    (countEff isSetHandlerCall
        (effectsOf (sendLocalNotification envHandlerThrows stInit "t" "b")) = 1 ∧
     (stateOf stInit
        (sendLocalNotification envHandlerThrows stInit "t" "b")).handlerRegistered = false ∧
     countEff isSetHandlerCall
       (effectsOf (sendLocalNotification envHandlerThrows
          (stateOf stInit (sendLocalNotification envHandlerThrows stInit "t" "b"))
          "t" "b")) = 1 ∧
     countEff isSetHandlerCall
       (effectsOf (scheduleNotification envHandlerThrows
          (stateOf stInit (sendLocalNotification envHandlerThrows stInit "t" "b"))
          "t" "b" 5)) = 1 ∧
     countEff isSetHandlerCall
        (effectsOf (scheduleNotification envHandlerThrows stInit "t" "b" 5)) = 1 ∧
     (stateOf stInit
        (scheduleNotification envHandlerThrows stInit "t" "b" 5)).handlerRegistered
        = false ∧
     countEff isSetHandlerCall
       (effectsOf (sendLocalNotification envHandlerThrows
          (stateOf stInit (scheduleNotification envHandlerThrows stInit "t" "b" 5))
          "t" "b")) = 1 ∧
     countEff isSetHandlerCall
       (effectsOf (scheduleNotification envHandlerThrows
          (stateOf stInit (scheduleNotification envHandlerThrows stInit "t" "b" 5))
          "t" "b" 5)) = 1) :=
  ⟨(claim9_flag_only_after_success envNativeOk stInit "t" "b" 5
      (by decide) rfl rfl).1 rfl,
   (claim9_flag_only_after_success envHandlerThrows stInit "t" "b" 5
      (by decide) rfl rfl).2 rfl⟩

/-- C10: on web, `scheduleNotification` performs no capability check,
permission read or request, and no warning at call time: its result is
identical for any two web environments (in particular whether or not
browser notifications are supported or permitted), its call-time effect
trace is empty, exactly one timer is armed, and support and permission
are consulted only when the timer fires, by running
`sendWebNotification` against the environment at firing time. -/
theorem claim10_web_schedule_defers_all_checks (e1 e2 : Env) (st : MState)
    (title body : String) (seconds : Nat)
    (h1 : e1.os = .web) (h2 : e2.os = .web) :
    scheduleNotification e1 st title body seconds =
      scheduleNotification e2 st title body seconds ∧
    effectsOf (scheduleNotification e1 st title body seconds) = [] ∧
    timersOf (scheduleNotification e1 st title body seconds) =
      [⟨seconds * 1000, title, body⟩] ∧
    (∀ envAtFire : Env, ∀ tm ∈ timersOf (scheduleNotification e1 st title body seconds),
      fireTimer envAtFire tm = sendWebNotification envAtFire title body) := by
  rw [schedule_web_eq e1 st title body seconds h1,
      schedule_web_eq e2 st title body seconds h2]
  refine ⟨rfl, rfl, rfl, ?_⟩
  intro envAtFire tm htm
  simp only [timersOf, List.mem_singleton] at htm
  subst htm
  rfl

/-- Witness for C10: a supported-and-granted web environment against
one with no browser Notification capability at all — the call completes
identically. -/
theorem claim10_witness :
    scheduleNotification envWebGranted stInit "t" "b" 5 =
      scheduleNotification envWebNoCapability stInit "t" "b" 5 ∧
    effectsOf (scheduleNotification envWebGranted stInit "t" "b" 5) = [] ∧
    timersOf (scheduleNotification envWebGranted stInit "t" "b" 5) = [⟨5000, "t", "b"⟩] ∧
    (∀ envAtFire : Env, ∀ tm ∈ timersOf (scheduleNotification envWebGranted stInit "t" "b" 5),
      fireTimer envAtFire tm = sendWebNotification envAtFire "t" "b") :=
  claim10_web_schedule_defers_all_checks envWebGranted envWebNoCapability stInit
    "t" "b" 5 rfl rfl

end NotificationService
